import Mathlib

/-!
Verification of the fuzzy mental-health assessment pipeline
(`streamlit_app.py`): triangular membership functions, the rule base,
max-min inference with discrete centroid defuzzification, the crisis
override, the emergency keyword detector, the pattern detector, the
risk label and the recommendation generator.

Crisp values are modelled as rationals; the shared universe is the
101-point grid 0, 0.1, ..., 10. Free text is modelled as a list of
characters.
-/

namespace FuzzyMH

/-- Modelled from the spec: triangular membership function of `skfuzzy.trimf`
(the library the source calls; its code is not part of this repository).
Zero outside `[a, c]`, rises linearly from `a` to `b`, falls linearly from
`b` to `c`, exactly `1` at `b` (also in the degenerate cases `a = b` or
`b = c`). -/
def trimf (a b c x : ℚ) : ℚ :=
  if x = b then 1
  else if a < x ∧ x < b then (x - a) / (b - a)
  else if b < x ∧ x < c then (c - x) / (c - b)
  else 0

/-- Linguistic terms of every input variable (`add_lmh`). -/
inductive TermLabel
  | low
  | medium
  | high
  deriving DecidableEq, Repr

/-- Linguistic terms of the output variable `distress`. -/
inductive OutTerm
  | low
  | moderate
  | high
  deriving DecidableEq, Repr

/-- Input-variable membership functions: `low=(0,0,4)`, `medium=(2,5,8)`,
`high=(6,10,10)` (`add_lmh` in the source). -/
def inputMF : TermLabel → ℚ → ℚ
  | .low, x => trimf 0 0 4 x
  | .medium, x => trimf 2 5 8 x
  | .high, x => trimf 6 10 10 x

/-- Output-variable membership functions: `low=(0,0,4)`, `moderate=(3,5,7)`,
`high=(6,10,10)` (the `distress` consequent in the source). -/
def distressMF : OutTerm → ℚ → ℚ
  | .low, u => trimf 0 0 4 u
  | .moderate, u => trimf 3 5 7 u
  | .high, u => trimf 6 10 10 u

/-- The thirteen fuzzy input variables of the source. -/
inductive Var
  | happiness
  | anxiety
  | sadness
  | irritability
  | calmness
  | stress
  | sleep_quality
  | energy
  | motivation
  | concentration
  | appetite
  | social
  | workload
  deriving DecidableEq, Repr

/-- One crisp value per fuzzy input variable (the `inputs` dict). -/
structure Inputs where
  happiness : ℚ
  anxiety : ℚ
  sadness : ℚ
  irritability : ℚ
  calmness : ℚ
  stress : ℚ
  sleep_quality : ℚ
  energy : ℚ
  motivation : ℚ
  concentration : ℚ
  appetite : ℚ
  social : ℚ
  workload : ℚ
  deriving DecidableEq, Repr

/-- Look up the crisp value of a variable. -/
def Inputs.get (i : Inputs) : Var → ℚ
  | .happiness => i.happiness
  | .anxiety => i.anxiety
  | .sadness => i.sadness
  | .irritability => i.irritability
  | .calmness => i.calmness
  | .stress => i.stress
  | .sleep_quality => i.sleep_quality
  | .energy => i.energy
  | .motivation => i.motivation
  | .concentration => i.concentration
  | .appetite => i.appetite
  | .social => i.social
  | .workload => i.workload

/-- All thirteen crisp inputs lie in the slider range `[0, 10]`. -/
def inRange (i : Inputs) : Prop :=
  (0 ≤ i.happiness ∧ i.happiness ≤ 10) ∧
  (0 ≤ i.anxiety ∧ i.anxiety ≤ 10) ∧
  (0 ≤ i.sadness ∧ i.sadness ≤ 10) ∧
  (0 ≤ i.irritability ∧ i.irritability ≤ 10) ∧
  (0 ≤ i.calmness ∧ i.calmness ≤ 10) ∧
  (0 ≤ i.stress ∧ i.stress ≤ 10) ∧
  (0 ≤ i.sleep_quality ∧ i.sleep_quality ≤ 10) ∧
  (0 ≤ i.energy ∧ i.energy ≤ 10) ∧
  (0 ≤ i.motivation ∧ i.motivation ≤ 10) ∧
  (0 ≤ i.concentration ∧ i.concentration ≤ 10) ∧
  (0 ≤ i.appetite ∧ i.appetite ≤ 10) ∧
  (0 ≤ i.social ∧ i.social ≤ 10) ∧
  (0 ≤ i.workload ∧ i.workload ≤ 10)

instance (i : Inputs) : Decidable (inRange i) := by
  unfold inRange; infer_instance

/-- Antecedent expression tree: leaves are (variable, term) references,
`&` is pointwise min, `|` is pointwise max. -/
inductive Ante
  | leaf (v : Var) (t : TermLabel)
  | and (a b : Ante)
  | or (a b : Ante)
  deriving DecidableEq, Repr

/-- Firing degree of an antecedent at a crisp input vector. -/
def anteEval (i : Inputs) : Ante → ℚ
  | .leaf v t => inputMF t (i.get v)
  | .and a b => min (anteEval i a) (anteEval i b)
  | .or a b => max (anteEval i a) (anteEval i b)

/-- A rule: antecedent expression plus one consequent `distress` term. -/
structure Rule where
  ante : Ante
  cons : OutTerm
  deriving DecidableEq, Repr

/-- The ten complex multi-factor rules, in source order. -/
def complexRules : List Rule := [
  ⟨.and (.leaf .stress .high) (.leaf .sleep_quality .low), .high⟩,
  ⟨.and (.leaf .anxiety .high) (.leaf .concentration .low), .high⟩,
  ⟨.and (.and (.leaf .sadness .high) (.leaf .motivation .low)) (.leaf .social .low), .high⟩,
  ⟨.and (.and (.leaf .workload .high) (.leaf .energy .low)) (.leaf .stress .high), .high⟩,
  ⟨.and (.and (.leaf .irritability .high) (.leaf .sleep_quality .low)) (.leaf .stress .high), .high⟩,
  ⟨.and (.and (.leaf .happiness .high) (.leaf .calmness .high)) (.leaf .stress .low), .low⟩,
  ⟨.and (.and (.leaf .energy .high) (.leaf .motivation .high)) (.leaf .sleep_quality .high), .low⟩,
  ⟨.and (.leaf .anxiety .high) (.leaf .sleep_quality .low), .moderate⟩,
  ⟨.and (.leaf .sadness .medium) (.leaf .motivation .low), .moderate⟩,
  ⟨.or (.leaf .appetite .low) (.leaf .appetite .high), .moderate⟩]

/-- The 26 single-antecedent baseline rules, in source order. -/
def baselineRules : List Rule := [
  ⟨.leaf .happiness .high, .low⟩, ⟨.leaf .happiness .low, .moderate⟩,
  ⟨.leaf .anxiety .high, .high⟩, ⟨.leaf .anxiety .medium, .moderate⟩,
  ⟨.leaf .sadness .high, .high⟩, ⟨.leaf .sadness .medium, .moderate⟩,
  ⟨.leaf .irritability .high, .high⟩, ⟨.leaf .irritability .low, .low⟩,
  ⟨.leaf .calmness .high, .low⟩, ⟨.leaf .calmness .low, .moderate⟩,
  ⟨.leaf .stress .high, .high⟩, ⟨.leaf .stress .medium, .moderate⟩,
  ⟨.leaf .sleep_quality .low, .high⟩, ⟨.leaf .sleep_quality .high, .low⟩,
  ⟨.leaf .energy .low, .high⟩, ⟨.leaf .energy .high, .low⟩,
  ⟨.leaf .motivation .low, .high⟩, ⟨.leaf .motivation .high, .low⟩,
  ⟨.leaf .concentration .low, .high⟩, ⟨.leaf .concentration .high, .low⟩,
  ⟨.leaf .appetite .low, .moderate⟩, ⟨.leaf .appetite .high, .moderate⟩,
  ⟨.leaf .social .low, .moderate⟩, ⟨.leaf .social .high, .low⟩,
  ⟨.leaf .workload .high, .high⟩, ⟨.leaf .workload .low, .low⟩]

/-- The full rule base in construction order. -/
def rules : List Rule := complexRules ++ baselineRules

/-- The shared universe: 101 grid points 0, 0.1, ..., 10. -/
def universePoints : List ℚ := (List.range 101).map (fun n => (n : ℚ) / 10)

/-- Firing strength of a rule at a crisp input vector. -/
def ruleStrength (i : Inputs) (r : Rule) : ℚ := anteEval i r.ante

/-- Modelled from the spec: aggregation of `distress_sim.compute`
(`skfuzzy.control`, not part of this repository). Value of the combined
output membership at one universe point: pointwise max over all rules of
the consequent membership clipped at the firing strength of the rule. -/
def aggregated (i : Inputs) (u : ℚ) : ℚ :=
  rules.foldr (fun r acc => max (min (ruleStrength i r) (distressMF r.cons u)) acc) 0

/-- Denominator of the discrete centroid: the total aggregated mass. -/
def defuzzDen (i : Inputs) : ℚ := (universePoints.map (fun u => aggregated i u)).sum

/-- Numerator of the discrete centroid. -/
def defuzzNum (i : Inputs) : ℚ := (universePoints.map (fun u => u * aggregated i u)).sum

/-- Modelled from the spec: defuzzification of `distress_sim.compute`
(centroid over the 101-point grid). `none` models the guarded
ComputationError branch (zero denominator, surfaced by the except handler
of the source as `score = None`). -/
def compute (i : Inputs) : Option ℚ :=
  if defuzzDen i = 0 then none else some (defuzzNum i / defuzzDen i)

/-- Whether `pat` is an initial segment of `hay` (the building block of the
Python substring test `k in txt`). -/
def startsWithPat : List Char → List Char → Bool
  | _, [] => true
  | [], _ :: _ => false
  | c :: hs, d :: ps => c == d && startsWithPat hs ps

/-- The Python substring containment `pat in hay`: some suffix of `hay`
starts with `pat`. -/
def containsPat : List Char → List Char → Bool
  | [], pat => startsWithPat [] pat
  | c :: hs, pat => startsWithPat (c :: hs) pat || containsPat hs pat

/-- The ten keywords scanned by `keyword_emergency_check`, in source order. -/
def keywords : List (List Char) :=
  ["suicide".toList, "kill myself".toList, "killing myself".toList,
   "suicidal".toList, "hurt myself".toList, "no point".toList,
   "hopeless".toList, "die".toList, "death".toList, "kill me".toList]

/-- The stricter emergency triggers, in source order. -/
def emergencyTriggers : List (List Char) :=
  ["suicide".toList, "kill myself".toList, "killing myself".toList,
   "suicidal".toList, "hurt myself".toList, "kill me".toList]

/-- The helper `keyword_emergency_check` from the source: absent or empty text gives
`(false, [])`; otherwise the text is lowercased, `found` keeps the keywords
occurring as substrings (in list order) and the emergency flag is set iff
some stricter trigger occurs as a substring. -/
def keyword_emergency_check (text : Option (List Char)) : Bool × List (List Char) :=
  match text with
  | none => (false, [])
  | some t =>
    if t = [] then (false, [])
    else
      let txt := t.map Char.toLower
      (emergencyTriggers.any (fun k => containsPat txt k),
       keywords.filter (fun k => containsPat txt k))

/-- The crisis override (`CRISIS OVERRIDE LOGIC` section): priority-ordered
tiers raising the score to a floor and setting the crisis flag; an absent
fuzzy score counts as 0 (`score or 0`). Returns (new score, crisis flag). -/
def crisisOverride (score : Option ℚ) (suicidal selfHarm : ℚ) (isEmg : Bool) :
    Option ℚ × Bool :=
  if 7 ≤ suicidal ∨ 7 ≤ selfHarm ∨ isEmg = true then
    (some (max (score.getD 0) 9.5), true)
  else if 4 ≤ suicidal ∨ 4 ≤ selfHarm then
    (some (max (score.getD 0) 8), true)
  else if 0 < suicidal ∨ 0 < selfHarm then
    (some (max (score.getD 0) 6), true)
  else (score, false)

/-- The pattern detector (`PATTERN DETECTION` section): fixed thresholds on
the raw crisp inputs, tags appended in source order. -/
def detect_patterns (i : Inputs) (suicidal selfHarm : ℚ) : List String :=
  (if i.appetite ≤ 3 ∨ 8 ≤ i.appetite then ["Appetite Change"] else []) ++
  (if i.sleep_quality ≤ 4 then ["Sleep Irregularity"] else []) ++
  (if i.motivation ≤ 3 then ["Low Motivation"] else []) ++
  (if 6 ≤ i.anxiety then ["Anxiety Indicators"] else []) ++
  (if i.social ≤ 2 then ["Social Withdrawal"] else []) ++
  (if 6 ≤ i.irritability then ["Irritability Spike"] else []) ++
  (if i.energy ≤ 3 then ["Low Energy Pattern"] else []) ++
  (if 0 < suicidal then ["Suicidal Ideation"] else []) ++
  (if 0 < selfHarm then ["Self-harm Thoughts"] else [])

/-- The nine pattern tags in the fixed detection order. -/
def allTags : List String :=
  ["Appetite Change", "Sleep Irregularity", "Low Motivation",
   "Anxiety Indicators", "Social Withdrawal", "Irritability Spike",
   "Low Energy Pattern", "Suicidal Ideation", "Self-harm Thoughts"]

/-- The message returned when the score is absent. -/
def unableMsg : String := "Unable to compute distress score."

/-- Score-band message for `score <= 2`. -/
def lowMsg : String :=
  "Your distress level appears low. Maintain healthy routines such as consistent sleep, hydration, and regular movement."

/-- Score-band message for `2 < score <= 4`. -/
def mildMsg : String :=
  "Your distress is mild. A short self-care break, a walk, or light breathing exercises can help stabilize your emotional state."

/-- Score-band message for `4 < score <= 6`. -/
def moderateMsg : String :=
  "Your distress is moderate. Consider structured breaks, reducing workload temporarily, and practicing grounding techniques. Prioritize tasks and avoid overstimulation."

/-- Score-band message for `6 < score <= 8`. -/
def highMsg : String :=
  "Your distress is high. It may help to slow down, reduce commitments where possible, and talk to a trusted person or counselor. Mindfulness and relaxation exercises can help significantly."

/-- Score-band message for `score > 8`. -/
def veryHighMsg : String :=
  "Your distress is very high. Please seek emotional support immediately—reach out to a mental health professional or someone you trust. Avoid isolation and practice grounding exercises."

/-- Contextual message for the Appetite Change pattern. -/
def appetiteMsg : String :=
  "- Appetite changes detected. Try maintaining consistent meals and hydration. If this persists for more than a week, consider consulting a healthcare professional."

/-- Contextual message for the Sleep Irregularity pattern. -/
def sleepMsg : String :=
  "- Sleep irregularities noted. Aim for a stable sleep-wake schedule and reduce late-night screen use."

/-- Contextual message for the Low Motivation pattern. -/
def motivationMsg : String :=
  "- Low motivation observed. Break tasks into very small steps and acknowledge small achievements. Behavioral activation can help boost momentum."

/-- Contextual message for the Anxiety Indicators pattern. -/
def anxietyMsg : String :=
  "- Anxiety patterns detected. Try slow breathing exercises (4-4-6 method) or grounding techniques like the 5-4-3-2-1 sensory tool."

/-- Contextual message for the Social Withdrawal pattern. -/
def socialMsg : String :=
  "- Reduced social interaction detected. A short conversation with a familiar person can help stabilize emotional state."

/-- Contextual message for the Irritability Spike pattern. -/
def irritabilityMsg : String :=
  "- Increased irritability detected. Short pauses, hydration, and stepping outside briefly can reduce overstimulation."

/-- Contextual message for the Low Energy Pattern pattern. -/
def energyMsg : String :=
  "- Low energy levels identified. Light stretching, hydration, and stepping outside for sunlight can boost alertness."

/-- Contextual message for the Suicidal Ideation pattern. -/
def suicidalMsg : String :=
  "- Suicidal thoughts detected. You deserve immediate support. Consider reaching out to someone you trust, a crisis line, or local emergency services. If you are in immediate danger, call your local emergency number."

/-- Contextual message for the Self-harm Thoughts pattern. -/
def selfHarmMsg : String :=
  "- Self-harm thoughts detected. Please prioritize immediate safety: avoid being alone if possible, remove access to means, and contact a trusted person or professional."

/-- The urgent safety message appended when the crisis flag is set. -/
def crisisMsg : String :=
  "- You are showing signs of significant distress. If thoughts of harming yourself are present or intensifying, contact local emergency services or a crisis helpline right away. If possible, stay with someone you trust while you seek help."

/-- The generic wellness fallback message. -/
def fallbackMsg : String :=
  "No concerning patterns detected, but maintaining balanced sleep, hydration, nutrition, and movement is always beneficial."

/-- The nine contextual pattern messages in the fixed order. -/
def allPatternMsgs : List String :=
  [appetiteMsg, sleepMsg, motivationMsg, anxietyMsg, socialMsg,
   irritabilityMsg, energyMsg, suicidalMsg, selfHarmMsg]

/-- The score-band branch of `generate_recommendations`
(`SCORE-BASED INTERPRETATION` section), with the guards of the source. -/
def scoreBandMsgs (s : ℚ) : List String :=
  if s ≤ 2 then [lowMsg]
  else if 2 < s ∧ s ≤ 4 then [mildMsg]
  else if 4 < s ∧ s ≤ 6 then [moderateMsg]
  else if 6 < s ∧ s ≤ 8 then [highMsg]
  else [veryHighMsg]

/-- The pattern branch of `generate_recommendations`
(`PATTERN-BASED ANALYSIS` section): one fixed message per tag present,
checked in the fixed order. -/
def patternMsgs (patterns : List String) : List String :=
  (if ("Appetite Change" ∈ patterns) then [appetiteMsg] else []) ++
  (if ("Sleep Irregularity" ∈ patterns) then [sleepMsg] else []) ++
  (if ("Low Motivation" ∈ patterns) then [motivationMsg] else []) ++
  (if ("Anxiety Indicators" ∈ patterns) then [anxietyMsg] else []) ++
  (if ("Social Withdrawal" ∈ patterns) then [socialMsg] else []) ++
  (if ("Irritability Spike" ∈ patterns) then [irritabilityMsg] else []) ++
  (if ("Low Energy Pattern" ∈ patterns) then [energyMsg] else []) ++
  (if ("Suicidal Ideation" ∈ patterns) then [suicidalMsg] else []) ++
  (if ("Self-harm Thoughts" ∈ patterns) then [selfHarmMsg] else [])

/-- The generator `generate_recommendations` from the source: absent score short-circuits
to the single unable-to-compute message; otherwise one score-band message,
the pattern messages (the source skips that section for an empty pattern
list), the crisis message when the flag is set, and the generic fallback
when nothing was produced. -/
def generate_recommendations (score : Option ℚ) (patterns : List String)
    (crisis : Bool) : List String :=
  match score with
  | none => [unableMsg]
  | some s =>
    let recs := scoreBandMsgs s ++
      (if patterns = [] then [] else patternMsgs patterns) ++
      (if crisis then [crisisMsg] else [])
    if recs = [] then [fallbackMsg] else recs

/-- The score-band selector as the spec words it (section 4.8 step 1):
`score<=2` low; `2<score<=4` mild; `4<score<=6` moderate; `6<score<=8`
high; `score>8` very-high. Written from the spec to be compared with
`scoreBandMsgs` of the source. -/
def specBandMessage (s : ℚ) : String :=
  if s ≤ 2 then lowMsg
  else if s ≤ 4 then mildMsg
  else if s ≤ 6 then moderateMsg
  else if s ≤ 8 then highMsg
  else veryHighMsg

/-- The risk label vocabulary. -/
inductive RiskLabel
  | LOW
  | MODERATE
  | HIGH
  deriving DecidableEq, Repr

/-- The risk-label branch of the output section: `score<=3` LOW,
`3<score<=7` MODERATE, `score>7` HIGH. -/
def risk_level (s : ℚ) : RiskLabel :=
  if s ≤ 3 then .LOW else if s ≤ 7 then .MODERATE else .HIGH

/-- The output bundle produced per run. -/
structure AssessmentResult where
  score : Option ℚ
  risk : Option RiskLabel
  crisis : Bool
  patterns : List String
  recommendations : List String
  isEmergency : Bool
  matchedKeywords : List (List Char)
  deriving DecidableEq, Repr

/-- The whole pipeline of the `Run Fuzzy Assessment` handler: keyword scan,
fuzzy inference, crisis override, then — only when the final score is
defined — risk label, pattern detection and recommendations. -/
def run_assessment (i : Inputs) (suicidal selfHarm : ℚ)
    (text : Option (List Char)) : AssessmentResult :=
  let emg := keyword_emergency_check text
  let ov := crisisOverride (compute i) suicidal selfHarm emg.1
  match ov.1 with
  | none => ⟨none, none, ov.2, [], [], emg.1, emg.2⟩
  | some s =>
    ⟨some s, some (risk_level s), ov.2, detect_patterns i suicidal selfHarm,
     generate_recommendations (some s) (detect_patterns i suicidal selfHarm) ov.2,
     emg.1, emg.2⟩

/-- Scenario A input: all thirteen sliders at 0. -/
def zeroInputs : Inputs := ⟨0, 0, 0, 0, 0, 0, 0, 0, 0, 0, 0, 0, 0⟩

/-- An in-range input hitting the coverage gap of the rule base:
`anxiety`, `sadness` and `stress` at 0 (their `medium`/`high` terms vanish
there) and every other variable at 5 (where its `low` and `high` terms
vanish and no rule consults its `medium` term). -/
def gapInputs : Inputs := ⟨5, 0, 0, 5, 5, 0, 5, 5, 5, 5, 5, 5, 5⟩

/-- Characterization of `startsWithPat`: it decides the list-prefix relation. -/
theorem startsWithPat_iff (hay pat : List Char) :
    startsWithPat hay pat = true ↔ pat <+: hay := by
  induction hay generalizing pat with
  | nil => cases pat with
    | nil => simp [startsWithPat]
    | cons d ps => simp [startsWithPat]
  | cons c hs ih => cases pat with
    | nil => simp [startsWithPat]
    | cons d ps =>
      rw [show startsWithPat (c :: hs) (d :: ps) = (c == d && startsWithPat hs ps) from rfl,
          Bool.and_eq_true, beq_iff_eq, ih, List.cons_prefix_cons]
      constructor
      · rintro ⟨h1, h2⟩; exact ⟨h1.symm, h2⟩
      · rintro ⟨h1, h2⟩; exact ⟨h1.symm, h2⟩

/-- Characterization of `containsPat`: it decides substring containment,
that is, the contiguous-sublist relation. -/
theorem containsPat_iff (hay pat : List Char) :
    containsPat hay pat = true ↔ pat <:+: hay := by
  induction hay with
  | nil =>
    rw [show containsPat [] pat = startsWithPat [] pat from rfl, startsWithPat_iff,
        List.prefix_nil, List.infix_nil]
  | cons c hs ih =>
    rw [show containsPat (c :: hs) pat =
          (startsWithPat (c :: hs) pat || containsPat hs pat) from rfl,
        Bool.or_eq_true, startsWithPat_iff, ih, List.infix_cons_iff]

/-- Membership in a conditional singleton. -/
theorem mem_ite_singleton {α : Type} {x a : α} {c : Prop} [Decidable c] :
    (x ∈ if c then [a] else []) ↔ c ∧ x = a := by
  split_ifs with h <;> simp [h]

/-- The band chain of the source picks exactly the message the spec
partition picks. -/
theorem scoreBandMsgs_eq (s : ℚ) : scoreBandMsgs s = [specBandMessage s] := by
  unfold scoreBandMsgs specBandMessage
  rcases le_or_lt s 2 with h2 | h2
  · rw [if_pos h2, if_pos h2]
  · rw [if_neg (not_le.2 h2), if_neg (not_le.2 h2)]
    rcases le_or_lt s 4 with h4 | h4
    · rw [if_pos ⟨h2, h4⟩, if_pos h4]
    · rw [if_neg (by rintro ⟨-, hh⟩; exact absurd hh (not_le.2 h4)),
         if_neg (not_le.2 h4)]
      rcases le_or_lt s 6 with h6 | h6
      · rw [if_pos ⟨h4, h6⟩, if_pos h6]
      · rw [if_neg (by rintro ⟨-, hh⟩; exact absurd hh (not_le.2 h6)),
           if_neg (not_le.2 h6)]
        rcases le_or_lt s 8 with h8 | h8
        · rw [if_pos ⟨h6, h8⟩, if_pos h8]
        · rw [if_neg (by rintro ⟨-, hh⟩; exact absurd hh (not_le.2 h8)),
             if_neg (not_le.2 h8)]

/-- An empty pattern list yields no pattern messages. -/
theorem patternMsgs_nil : patternMsgs [] = [] := by simp [patternMsgs]

/-- Shape of the recommendation list for a defined score: one band message,
then the pattern messages, then the crisis message iff the flag is set. -/
theorem genRecs_some (s : ℚ) (p : List String) (c : Bool) :
    generate_recommendations (some s) p c =
      specBandMessage s :: (patternMsgs p ++ if c then [crisisMsg] else []) := by
  have hb := scoreBandMsgs_eq s
  simp only [generate_recommendations, hb]
  by_cases hp : p = []
  · subst hp
    simp [patternMsgs_nil]
  · rw [if_neg hp]
    simp

/-- Every pattern message comes from the fixed list of nine. -/
theorem patternMsgs_subset (p : List String) :
    ∀ x ∈ patternMsgs p, x ∈ allPatternMsgs := by
  intro x hx
  simp only [patternMsgs, List.mem_append, mem_ite_singleton] at hx
  simp only [allPatternMsgs, List.mem_cons, List.not_mem_nil, or_false]
  tauto

/-- A conditional singleton is a sublist of the plain singleton. -/
theorem ite_singleton_sublist {α : Type} {a : α} {c : Prop} [Decidable c] :
    (if c then [a] else []).Sublist [a] := by
  split_ifs <;> simp

/-- Membership in the detected pattern list, tag by tag. -/
theorem mem_detect_patterns (i : Inputs) (su sh : ℚ) (t : String) :
    t ∈ detect_patterns i su sh ↔
      ((i.appetite ≤ 3 ∨ 8 ≤ i.appetite) ∧ t = "Appetite Change") ∨
      (i.sleep_quality ≤ 4 ∧ t = "Sleep Irregularity") ∨
      (i.motivation ≤ 3 ∧ t = "Low Motivation") ∨
      (6 ≤ i.anxiety ∧ t = "Anxiety Indicators") ∨
      (i.social ≤ 2 ∧ t = "Social Withdrawal") ∨
      (6 ≤ i.irritability ∧ t = "Irritability Spike") ∨
      (i.energy ≤ 3 ∧ t = "Low Energy Pattern") ∨
      (0 < su ∧ t = "Suicidal Ideation") ∨
      (0 < sh ∧ t = "Self-harm Thoughts") := by
  simp only [detect_patterns, List.mem_append, mem_ite_singleton, or_assoc]

/-- The detected pattern list is a sublist of the nine tags in their
fixed order. -/
theorem detect_patterns_sublist (i : Inputs) (su sh : ℚ) :
    (detect_patterns i su sh).Sublist allTags := by
  show (detect_patterns i su sh).Sublist
    (["Appetite Change"] ++ ["Sleep Irregularity"] ++ ["Low Motivation"] ++
     ["Anxiety Indicators"] ++ ["Social Withdrawal"] ++ ["Irritability Spike"] ++
     ["Low Energy Pattern"] ++ ["Suicidal Ideation"] ++ ["Self-harm Thoughts"])
  unfold detect_patterns
  refine List.Sublist.append (List.Sublist.append (List.Sublist.append
    (List.Sublist.append (List.Sublist.append (List.Sublist.append
    (List.Sublist.append (List.Sublist.append ?_ ?_) ?_) ?_) ?_) ?_) ?_) ?_) ?_ <;>
    exact ite_singleton_sublist

/-- No tag repeats in the detected pattern list. -/
theorem detect_patterns_nodup (i : Inputs) (su sh : ℚ) :
    (detect_patterns i su sh).Nodup :=
  (detect_patterns_sublist i su sh).nodup (by decide)

/-- The crisis flag of the result is the override flag. -/
theorem run_assessment_crisis (i : Inputs) (su sh : ℚ) (t : Option (List Char)) :
    (run_assessment i su sh t).crisis =
      (crisisOverride (compute i) su sh (keyword_emergency_check t).1).2 := by
  simp only [run_assessment]
  split <;> rfl

/-- The score of the result is the post-override score. -/
theorem run_assessment_score (i : Inputs) (su sh : ℚ) (t : Option (List Char)) :
    (run_assessment i su sh t).score =
      (crisisOverride (compute i) su sh (keyword_emergency_check t).1).1 := by
  simp only [run_assessment]
  split <;> simp_all

/-- Shape of the result bundle when the post-override score is defined. -/
theorem run_assessment_some (i : Inputs) (su sh : ℚ) (t : Option (List Char))
    (s : ℚ)
    (h : (crisisOverride (compute i) su sh (keyword_emergency_check t).1).1 = some s) :
    run_assessment i su sh t =
      ⟨some s, some (risk_level s),
       (crisisOverride (compute i) su sh (keyword_emergency_check t).1).2,
       detect_patterns i su sh,
       generate_recommendations (some s) (detect_patterns i su sh)
         (crisisOverride (compute i) su sh (keyword_emergency_check t).1).2,
       (keyword_emergency_check t).1, (keyword_emergency_check t).2⟩ := by
  simp only [run_assessment]
  split
  · simp_all
  · simp_all

/-- Claim C4: the safety override is priority-ordered with no stacking.
The highest matching tier alone applies: 7-or-above (or the text emergency
flag) floors the score at 9.5, otherwise 4-or-above floors it at 8,
otherwise any positive signal floors it at 6, each setting the crisis
flag; with no signal the score is unchanged and the flag is false. -/
theorem crisisOverride_tiers (sc : Option ℚ) (su sh : ℚ) (e : Bool) :
    (7 ≤ su ∨ 7 ≤ sh ∨ e = true →
      crisisOverride sc su sh e = (some (max (sc.getD 0) 9.5), true)) ∧
    (¬(7 ≤ su ∨ 7 ≤ sh ∨ e = true) → (4 ≤ su ∨ 4 ≤ sh) →
      crisisOverride sc su sh e = (some (max (sc.getD 0) 8), true)) ∧
    (¬(7 ≤ su ∨ 7 ≤ sh ∨ e = true) → ¬(4 ≤ su ∨ 4 ≤ sh) → (0 < su ∨ 0 < sh) →
      crisisOverride sc su sh e = (some (max (sc.getD 0) 6), true)) ∧
    (¬(0 < su ∨ 0 < sh) → e = false → crisisOverride sc su sh e = (sc, false)) := by
  refine ⟨fun h1 => ?_, fun h1 h2 => ?_, fun h1 h2 h3 => ?_, fun h3 he => ?_⟩
  · unfold crisisOverride; rw [if_pos h1]
  · unfold crisisOverride; rw [if_neg h1, if_pos h2]
  · unfold crisisOverride; rw [if_neg h1, if_neg h2, if_pos h3]
  · unfold crisisOverride
    have h1 : ¬(7 ≤ su ∨ 7 ≤ sh ∨ e = true) := by
      push_neg at h3 ⊢
      exact ⟨by linarith [h3.1], by linarith [h3.2], by simp [he]⟩
    have h2 : ¬(4 ≤ su ∨ 4 ≤ sh) := by
      push_neg at h3 ⊢
      exact ⟨by linarith [h3.1], by linarith [h3.2]⟩
    rw [if_neg h1, if_neg h2, if_neg h3]

/-- Claim C4, witness: the top tier at a concrete input. -/
theorem crisisOverride_tiers_spot :
    crisisOverride (some 3) 8 0 false = (some 9.5, true) := by
  have h := (crisisOverride_tiers (some 3) 8 0 false).1 (Or.inl (by norm_num))
  rw [h, Option.getD_some, max_eq_right (by norm_num)]

/-- Claim C5: the safety override is a floor, not a replacement — the
post-override score is at least the fuzzy-computed score, and whenever a
tier matches (any positive signal or the emergency flag) the result is a
defined score, an absent fuzzy score being treated as 0. -/
theorem crisisOverride_floor (sc : Option ℚ) (su sh : ℚ) (e : Bool) :
    (∀ x, sc = some x → ∃ y, (crisisOverride sc su sh e).1 = some y ∧ x ≤ y) ∧
    ((0 < su ∨ 0 < sh ∨ e = true) → ∃ y, (crisisOverride sc su sh e).1 = some y) := by
  constructor
  · intro x hx
    unfold crisisOverride
    split_ifs <;>
      first
        | exact ⟨_, rfl, by rw [hx]; exact le_max_left x _⟩
        | exact ⟨x, hx, le_rfl⟩
  · intro hfire
    unfold crisisOverride
    split_ifs with h1 h2 h3
    · exact ⟨_, rfl⟩
    · exact ⟨_, rfl⟩
    · exact ⟨_, rfl⟩
    · exfalso; tauto

/-- Claim C5, witness: a fuzzy score of 7 survives the tier-3 floor of 6. -/
theorem crisisOverride_floor_spot :
    ∃ y, (crisisOverride (some 7) 1 0 false).1 = some y ∧ (7:ℚ) ≤ y :=
  (crisisOverride_floor (some 7) 1 0 false).1 7 rfl

/-- Claim C9: the risk label is determined solely by the final score via
the partition LOW below 3, MODERATE up to 7, HIGH above 7; the result
carries the label of its defined score and no label when the score is
absent. -/
theorem risk_label_spec :
    (∀ s : ℚ, s ≤ 3 → risk_level s = .LOW) ∧
    (∀ s : ℚ, 3 < s → s ≤ 7 → risk_level s = .MODERATE) ∧
    (∀ s : ℚ, 7 < s → risk_level s = .HIGH) ∧
    (∀ (i : Inputs) (su sh : ℚ) (t : Option (List Char)) (s : ℚ),
      (run_assessment i su sh t).score = some s →
      (run_assessment i su sh t).risk = some (risk_level s)) ∧
    (∀ (i : Inputs) (su sh : ℚ) (t : Option (List Char)),
      (run_assessment i su sh t).score = none →
      (run_assessment i su sh t).risk = none) := by
  refine ⟨fun s h => ?_, fun s h1 h2 => ?_, fun s h => ?_,
    fun i su sh t s h => ?_, fun i su sh t h => ?_⟩
  · unfold risk_level; rw [if_pos h]
  · unfold risk_level; rw [if_neg (not_le.2 h1), if_pos h2]
  · unfold risk_level; rw [if_neg (not_le.2 (by linarith)), if_neg (not_le.2 h)]
  · rw [run_assessment_score] at h
    rw [run_assessment_some i su sh t s h]
  · revert h
    simp only [run_assessment]
    split <;> simp

/-- Claim C9, witness: the three bands at concrete scores. -/
theorem risk_label_spot :
    risk_level 2 = RiskLabel.LOW ∧ risk_level 5 = RiskLabel.MODERATE ∧
      risk_level 8 = RiskLabel.HIGH :=
  ⟨risk_label_spec.1 2 (by norm_num), risk_label_spec.2.1 5 (by norm_num) (by norm_num),
   risk_label_spec.2.2.1 8 (by norm_num)⟩

/-- Claim C10: whenever the crisis flag is set the final score is defined
and at least 6, so the risk label exists and is never LOW, patterns and
recommendations are produced, and the crisis safety message is among the
recommendations. -/
theorem crisis_flag_invariant (i : Inputs) (su sh : ℚ) (t : Option (List Char))
    (h : (run_assessment i su sh t).crisis = true) :
    ∃ y : ℚ, (run_assessment i su sh t).score = some y ∧ 6 ≤ y ∧
      (run_assessment i su sh t).risk = some (risk_level y) ∧
      (run_assessment i su sh t).risk ≠ some RiskLabel.LOW ∧
      (run_assessment i su sh t).patterns = detect_patterns i su sh ∧
      (run_assessment i su sh t).recommendations ≠ [] ∧
      crisisMsg ∈ (run_assessment i su sh t).recommendations := by
  rw [run_assessment_crisis] at h
  have hov : ∃ y, (crisisOverride (compute i) su sh (keyword_emergency_check t).1).1
      = some y ∧ 6 ≤ y := by
    unfold crisisOverride at h ⊢
    split_ifs at h ⊢
    · exact ⟨_, rfl, le_trans (by norm_num) (le_max_right _ 9.5)⟩
    · exact ⟨_, rfl, le_trans (by norm_num) (le_max_right _ 8)⟩
    · exact ⟨_, rfl, le_max_right _ 6⟩
  obtain ⟨y, hy, h6⟩ := hov
  have hrun := run_assessment_some i su sh t y hy
  have hnlow : risk_level y ≠ RiskLabel.LOW := by
    unfold risk_level
    rw [if_neg (not_le.2 (by linarith))]
    split_ifs <;> simp
  refine ⟨y, ?_, h6, ?_, ?_, ?_, ?_, ?_⟩
  · rw [hrun]
  · rw [hrun]
  · rw [hrun]; simpa using hnlow
  · rw [hrun]
  · rw [hrun]; simp [genRecs_some]
  · rw [hrun, h, genRecs_some]
    simp

section

attribute [local semireducible] Rat.add Rat.mul Rat.inv Rat.sub Rat.ofScientific

set_option maxRecDepth 100000

set_option maxHeartbeats 2000000

/-- The engine at the scenario-A input: the all-zero vector fires the
appetite rule and the eight low-term baseline rules at full strength, the
aggregate is symmetric about 5, and the centroid is exactly 5. -/
theorem compute_zeroInputs : compute zeroInputs = some 5 := by decide

/-- At the gap input every one of the 36 rules has firing strength 0. -/
theorem gapInputs_strengths :
    rules.map (ruleStrength gapInputs) = List.replicate 36 0 := by decide

/-- At the gap input the aggregated mass — the defuzzification
denominator — is 0. -/
theorem defuzzDen_gapInputs : defuzzDen gapInputs = 0 := by decide

/-- At the gap input the engine takes the guarded error branch. -/
theorem compute_gapInputs : compute gapInputs = none := by
  unfold compute
  rw [if_pos defuzzDen_gapInputs]

/-- Full result bundle of scenario A (all sliders 0, no text). -/
theorem run_zero : run_assessment zeroInputs 0 0 none =
    ⟨some 5, some RiskLabel.MODERATE, false,
     ["Appetite Change", "Sleep Irregularity", "Low Motivation",
      "Social Withdrawal", "Low Energy Pattern"],
     [moderateMsg, appetiteMsg, sleepMsg, motivationMsg, socialMsg, energyMsg],
     false, []⟩ := by
  simp only [run_assessment, compute_zeroInputs]
  decide

/-- Full result bundle of scenario C (suicidal 5, everything else 0). -/
theorem run_c5 : run_assessment zeroInputs 5 0 none =
    ⟨some 8, some RiskLabel.HIGH, true,
     ["Appetite Change", "Sleep Irregularity", "Low Motivation",
      "Social Withdrawal", "Low Energy Pattern", "Suicidal Ideation"],
     [highMsg, appetiteMsg, sleepMsg, motivationMsg, socialMsg, energyMsg,
      suicidalMsg, crisisMsg],
     false, []⟩ := by
  simp only [run_assessment, compute_zeroInputs]
  decide

/-- Claim C1 (counterexample): at the scenario-A input the score is
exactly 5 — not near 0 to 2 — the risk label is MODERATE, not LOW, and
the recommendation list does not start with the low-distress message. -/
theorem scenarioA_refuted :
    (run_assessment zeroInputs 0 0 none).score = some 5 ∧
    ¬((5:ℚ) ≤ 2) ∧
    (run_assessment zeroInputs 0 0 none).risk = some RiskLabel.MODERATE ∧
    (run_assessment zeroInputs 0 0 none).risk ≠ some RiskLabel.LOW ∧
    (run_assessment zeroInputs 0 0 none).recommendations.head? ≠ some lowMsg := by
  rw [run_zero]
  exact ⟨rfl, by norm_num, rfl, by decide, by decide⟩

/-- Claim C1 (amended): at the scenario-A input the pipeline produces
score exactly 5, risk MODERATE, crisis false, a pattern list containing
Low Motivation, Social Withdrawal and Low Energy Pattern, and a
recommendation list starting with the moderate-distress message. -/
theorem scenarioA_amended :
    (run_assessment zeroInputs 0 0 none).score = some 5 ∧
    (run_assessment zeroInputs 0 0 none).risk = some RiskLabel.MODERATE ∧
    (run_assessment zeroInputs 0 0 none).crisis = false ∧
    "Low Motivation" ∈ (run_assessment zeroInputs 0 0 none).patterns ∧
    "Social Withdrawal" ∈ (run_assessment zeroInputs 0 0 none).patterns ∧
    "Low Energy Pattern" ∈ (run_assessment zeroInputs 0 0 none).patterns ∧
    (run_assessment zeroInputs 0 0 none).recommendations.head? = some moderateMsg := by
  rw [run_zero]
  exact ⟨rfl, rfl, rfl, by decide, by decide, by decide, by decide⟩

/-- Claim C2 (counterexample): an in-range input on which no rule fires —
every firing strength is 0, the defuzzification denominator is 0, and the
engine takes the guarded ComputationError branch. -/
theorem coverage_gap_refuted :
    inRange gapInputs ∧
    rules.map (ruleStrength gapInputs) = List.replicate 36 0 ∧
    defuzzDen gapInputs = 0 ∧
    compute gapInputs = none :=
  ⟨by decide, gapInputs_strengths, defuzzDen_gapInputs, compute_gapInputs⟩

/-- Claim C2 (amended): the baseline rules do not give full coverage —
there exists an input in the slider range on which every rule has firing
strength 0, the defuzzification denominator is 0 and the guarded
ComputationError branch is reached, so the guard is load-bearing, not
defense in depth. -/
theorem coverage_gap_amended :
    ∃ i : Inputs, inRange i ∧
      rules.map (ruleStrength i) = List.replicate 36 0 ∧
      defuzzDen i = 0 ∧ compute i = none :=
  ⟨gapInputs, by decide, gapInputs_strengths, defuzzDen_gapInputs, compute_gapInputs⟩

/-- Claim C3 (counterexample): at the scenario-C input the floored score
is 8, which falls in the high band, and the very-high-distress message is
not among the recommendations. -/
theorem scenarioC_refuted :
    (run_assessment zeroInputs 5 0 none).score = some 8 ∧
    veryHighMsg ∉ (run_assessment zeroInputs 5 0 none).recommendations := by
  rw [run_c5]
  exact ⟨rfl, by decide⟩

/-- Claim C3 (amended): at the scenario-C input the pipeline sets crisis,
floors the score at 8, detects Suicidal Ideation, and the recommendations
include the high-distress band message (as the first element), the
Suicidal Ideation contextual message and the crisis safety message. -/
theorem scenarioC_amended :
    (run_assessment zeroInputs 5 0 none).crisis = true ∧
    (run_assessment zeroInputs 5 0 none).score = some 8 ∧
    "Suicidal Ideation" ∈ (run_assessment zeroInputs 5 0 none).patterns ∧
    (run_assessment zeroInputs 5 0 none).recommendations.head? = some highMsg ∧
    suicidalMsg ∈ (run_assessment zeroInputs 5 0 none).recommendations ∧
    crisisMsg ∈ (run_assessment zeroInputs 5 0 none).recommendations := by
  rw [run_c5]
  exact ⟨rfl, rfl, by decide, by decide, by decide, by decide⟩

/-- Claim C10, witness: the crisis invariant at the scenario-C input. -/
theorem crisis_flag_invariant_spot :
    ∃ y : ℚ, (run_assessment zeroInputs 5 0 none).score = some y ∧ 6 ≤ y ∧
      (run_assessment zeroInputs 5 0 none).risk = some (risk_level y) ∧
      (run_assessment zeroInputs 5 0 none).risk ≠ some RiskLabel.LOW ∧
      (run_assessment zeroInputs 5 0 none).patterns = detect_patterns zeroInputs 5 0 ∧
      (run_assessment zeroInputs 5 0 none).recommendations ≠ [] ∧
      crisisMsg ∈ (run_assessment zeroInputs 5 0 none).recommendations :=
  crisis_flag_invariant zeroInputs 5 0 none (by decide)

/-- Claim C6: the keyword detector returns no match for absent or empty
text; otherwise the emergency flag is set iff a stricter trigger occurs
as a case-insensitive substring, and the matched list holds exactly the
keywords occurring as case-insensitive substrings, in list order; the two
worked examples of the spec hold. -/
theorem keyword_check_spec :
    keyword_emergency_check none = (false, []) ∧
    keyword_emergency_check (some []) = (false, []) ∧
    (∀ t : List Char, t ≠ [] →
      ((keyword_emergency_check (some t)).1 = true ↔
        ∃ k ∈ emergencyTriggers, k <:+: t.map Char.toLower) ∧
      (keyword_emergency_check (some t)).2 =
        keywords.filter (fun k => containsPat (t.map Char.toLower) k) ∧
      (∀ k, k ∈ (keyword_emergency_check (some t)).2 ↔
        k ∈ keywords ∧ k <:+: t.map Char.toLower)) ∧
    keyword_emergency_check (some ("I feel hopeless but fine".toList)) =
      (false, ["hopeless".toList]) ∧
    ((keyword_emergency_check (some ("I want to kill myself".toList))).1 = true ∧
      "kill myself".toList ∈
        (keyword_emergency_check (some ("I want to kill myself".toList))).2) := by
  refine ⟨rfl, rfl, fun t ht => ?_, by decide, by decide, by decide⟩
  simp only [keyword_emergency_check, if_neg ht]
  refine ⟨?_, by first | rfl | trivial, fun k => ?_⟩
  · simp [List.any_eq_true, containsPat_iff]
  · simp [List.mem_filter, containsPat_iff]

/-- Claim C6, witness: the general characterization applied to the
one-word text suicide. -/
theorem keyword_check_spec_spot :
    (keyword_emergency_check (some ("suicide".toList))).1 = true := by
  refine ((keyword_check_spec.2.2.1 ("suicide".toList) (by decide)).1).mpr ?_
  exact ⟨"suicide".toList, by decide, by decide⟩

/-- Claim C7: the recommendation generator returns exactly the single
unable-to-compute message for an absent score; otherwise the first
element is the unique score-band message of the spec partition, followed
by the per-pattern contextual messages in the fixed order, followed by
the crisis message iff the flag is set; the generic wellness fallback is
never produced when a score is present. -/
theorem recommendations_spec (p : List String) (c : Bool) :
    generate_recommendations none p c = [unableMsg] ∧
    (∀ s : ℚ, generate_recommendations (some s) p c =
      specBandMessage s :: (patternMsgs p ++ if c then [crisisMsg] else [])) ∧
    (∀ s : ℚ, fallbackMsg ∉ generate_recommendations (some s) p c) := by
  refine ⟨rfl, fun s => genRecs_some s p c, fun s => ?_⟩
  rw [genRecs_some]
  intro hmem
  rcases List.mem_cons.1 hmem with h | h
  · revert h
    unfold specBandMessage
    split_ifs <;> decide
  · rcases List.mem_append.1 h with h | h
    · exact absurd (patternMsgs_subset p _ h) (by decide)
    · revert h
      split_ifs <;> decide

/-- Claim C7, witness: the absent-score case at concrete arguments. -/
theorem recommendations_spec_spot :
    generate_recommendations none [] false = [unableMsg] :=
  (recommendations_spec [] false).1

/-- Claim C8: the pattern detector is a pure function of the raw crisp
inputs; each tag is present iff its threshold condition holds, the
emitted list is a sublist of the nine tags in their fixed order, and no
tag appears more than once. -/
theorem patterns_spec (i : Inputs) (su sh : ℚ) :
    (∀ t : String, t ∈ detect_patterns i su sh ↔
      ((i.appetite ≤ 3 ∨ 8 ≤ i.appetite) ∧ t = "Appetite Change") ∨
      (i.sleep_quality ≤ 4 ∧ t = "Sleep Irregularity") ∨
      (i.motivation ≤ 3 ∧ t = "Low Motivation") ∨
      (6 ≤ i.anxiety ∧ t = "Anxiety Indicators") ∨
      (i.social ≤ 2 ∧ t = "Social Withdrawal") ∨
      (6 ≤ i.irritability ∧ t = "Irritability Spike") ∨
      (i.energy ≤ 3 ∧ t = "Low Energy Pattern") ∨
      (0 < su ∧ t = "Suicidal Ideation") ∨
      (0 < sh ∧ t = "Self-harm Thoughts")) ∧
    (detect_patterns i su sh).Sublist allTags ∧
    (detect_patterns i su sh).Nodup :=
  ⟨fun t => mem_detect_patterns i su sh t, detect_patterns_sublist i su sh,
   detect_patterns_nodup i su sh⟩

/-- Claim C8, witness: the order-and-uniqueness part at a concrete input. -/
theorem patterns_spec_spot :
    (detect_patterns zeroInputs 1 0).Sublist allTags :=
  (patterns_spec zeroInputs 1 0).2.1

end

end FuzzyMH
